import Mathlib

/-!
Formal model of the multiplayer sword game's state-synchronization core.

Server side (src/server.js): the `players` registry keyed by socket id, the
connection / playerJoin / playerUpdate / playerDamaged / disconnect handlers,
the ghost-player sweep `cleanupGhostPlayers`, and the snapshot function
`sendExistingPlayersToClient`.

Client side (src/multiplayer.js): the remote-player shadow state mutated by
`updateRemotePlayer`, the interpolation tick `interpolatePlayerPositions`,
the client-side `cleanupGhostPlayers` sweep, and the network-quality
assessment `_assessNetworkQuality` / `_adjustInterpolationSettings`.

Numbers are embedded as exact rationals (ℚ) and times as integers
(milliseconds since the epoch, ℤ). JavaScript values that may be absent
(`undefined`/`null`) are embedded as `Option`; wire values that may be
non-finite or of the wrong runtime type are embedded as `JSNum`.
Purely diagnostic emissions (console logging, `debugMessage`, `connect_ack`,
`testResponse`) are omitted; every broadcast that mutating handlers emit to
clients is recorded in order in the returned `ServerEvent` list.
-/

namespace SwordGame

/-- A 3D coordinate with exact rational components. -/
structure Vec3 where
  x : ℚ
  y : ℚ
  z : ℚ
deriving DecidableEq, Repr

/-- A JavaScript value arriving in a numeric slot of a wire payload:
a finite number, NaN, one of the infinities, or a value that is not of
number type at all (including `undefined`). -/
inductive JSNum where
  | num (value : ℚ)
  | nan
  | infinity
  | negInfinity
  | notANumber
deriving DecidableEq, Repr

/-- The check `typeof v === 'number' && !isNaN(v) && isFinite(v)` used by
the server's playerUpdate handler and the client's updateRemotePlayer:
only a finite number passes. -/
def JSNum.isFiniteNumber : JSNum → Bool
  | .num _ => true
  | _ => false

/-- JavaScript `s || dflt` on a string slot: `undefined`, `null` and the
empty string are falsy and give the default. -/
def jsStringOr (v : Option String) (dflt : String) : String :=
  match v with
  | some s => if s = "" then dflt else s
  | none => dflt

/-- JavaScript `s || null` on a string slot: the empty string collapses
to `null`. -/
def jsStringOrNull (v : Option String) : Option String :=
  match v with
  | some s => if s = "" then none else some s
  | none => none

/-- Association-list lookup by key (a JavaScript object is embedded as a
key-ordered association list; reachable states have distinct keys). -/
def alistGet {α : Type} (k : String) : List (String × α) → Option α
  | [] => none
  | (k', v) :: rest => if k' = k then some v else alistGet k rest

/-- Association-list insertion: replaces the value at an existing key,
otherwise appends (matching JavaScript property assignment). -/
def alistInsert {α : Type} (k : String) (v : α) : List (String × α) → List (String × α)
  | [] => [(k, v)]
  | (k', v') :: rest => if k' = k then (k, v) :: rest else (k', v') :: alistInsert k v rest

/-- Association-list deletion (JavaScript `delete obj[k]`). -/
def alistRemove {α : Type} (k : String) (l : List (String × α)) : List (String × α) :=
  l.filter (fun p => p.1 ≠ k)

/-- A record of the server-side `players` registry. Fields that no creation
path sets until a later handler assigns them are `Option`-valued, `none`
standing for a JavaScript property that is absent. -/
structure PlayerRecord where
  id : String
  name : String
  joinedAt : ℤ
  fullyRegistered : Bool
  characterType : String
  position : Vec3
  rotation : ℚ
  health : ℚ
  lastActivity : ℤ
  swordType : Option String := none
  sessionId : Option String := none
  isAttacking : Option Bool := none
  isBlocking : Option Bool := none
  autoRegistered : Option Bool := none
  explicitlyRegistered : Option Bool := none
deriving DecidableEq, Repr

/-- The entry the ghost tracker `potentialGhostPlayers` keeps per socket id
(only `firstDetectedAt` feeds back into behaviour; the source also stores
the name and a diagnostic reason/inactive-duration field). -/
structure GhostMark where
  firstDetectedAt : ℤ
  name : String
deriving DecidableEq, Repr

/-- The payload of a `playerUpdated` broadcast (server.js lines 551-563). -/
structure UpdateBroadcast where
  id : String
  name : String
  characterType : String
  position : Vec3
  rotation : ℚ
  isAttacking : Option Bool
  isBlocking : Option Bool
  swordType : Option String
  health : ℚ
deriving DecidableEq, Repr

/-- The per-player entry of the `existingPlayers` snapshot built by
`sendExistingPlayersToClient` (server.js lines 890-898). -/
structure SnapshotEntry where
  id : String
  name : String
  characterType : String
  swordType : Option String
  position : Vec3
  rotation : ℚ
  health : ℚ
deriving DecidableEq, Repr

/-- A broadcast the server emits to clients, in emission order. -/
inductive ServerEvent where
  | playerJoined (record : PlayerRecord)
  | playerUpdated (payload : UpdateBroadcast)
  | existingPlayers (snapshot : List (String × SnapshotEntry))
  | healthUpdate (id : String) (health : ℚ)
  | playerDefeated (id : String)
  | playerRespawned (id : String) (position : Vec3)
  | playerLeft (id : String) (name : String) (reason : String)
deriving DecidableEq, Repr

/-- Server-side mutable state: the `players` registry, the `activeSessions`
set and the `potentialGhostPlayers` tracker (server.js lines 113-119). -/
structure ServerState where
  players : List (String × PlayerRecord)
  activeSessions : List String
  potentialGhostPlayers : List (String × GhostMark)
deriving DecidableEq, Repr

/-- The basic player record created immediately on connection
(server.js lines 250-261). -/
def initialPlayerRecord (socketId : String) (now : ℤ) : PlayerRecord :=
  { id := socketId
    name := "Player_" ++ socketId.take 5
    joinedAt := now
    fullyRegistered := false
    characterType := "knight"
    position := ⟨0, 0, 0⟩
    rotation := 0
    health := 100
    lastActivity := now }

/-- The connection handler's registry effect (server.js lines 233-261):
a provisional record is stored under the new socket id. -/
def connectHandler (st : ServerState) (socketId : String) (now : ℤ) : ServerState :=
  { st with players := alistInsert socketId (initialPlayerRecord socketId now) st.players }

/-- The per-record copy `sendExistingPlayersToClient` builds, without
internal fields (server.js lines 890-898). -/
def snapshotEntryOf (p : PlayerRecord) : SnapshotEntry :=
  { id := p.id
    name := p.name
    characterType := p.characterType
    swordType := p.swordType
    position := p.position
    rotation := p.rotation
    health := p.health }

/-- The `existingPlayers` snapshot (server.js lines 883-906): every fully
registered record, copied without internal fields. The source function
receives the requesting socket but never uses its id to filter. -/
def sendExistingPlayersToClient (players : List (String × PlayerRecord)) :
    List (String × SnapshotEntry) :=
  (players.filter (fun p => p.2.fullyRegistered)).map (fun p => (p.1, snapshotEntryOf p.2))

/-- The `playerUpdated` payload built from a stored record (server.js
lines 551-563 and 367-378 build this same shape). -/
def broadcastOf (socketId : String) (p : PlayerRecord) : UpdateBroadcast :=
  { id := socketId
    name := p.name
    characterType := p.characterType
    position := p.position
    rotation := p.rotation
    isAttacking := p.isAttacking
    isBlocking := p.isBlocking
    swordType := p.swordType
    health := p.health }

/-- The `playerDamaged` handler (server.js lines 619-640): subtract the
damage, broadcast the resulting (possibly negative) health, and if the
stored health is now ≤ 0, reset it to 0 and broadcast `playerDefeated`. -/
def playerDamaged (st : ServerState) (targetId : String) (damage : ℚ) :
    ServerState × List ServerEvent :=
  match alistGet targetId st.players with
  | none => (st, [])
  | some target =>
      let newHealth := target.health - damage
      if newHealth ≤ 0 then
        ({ st with players := alistInsert targetId { target with health := 0 } st.players },
         [ServerEvent.healthUpdate targetId newHealth, ServerEvent.playerDefeated targetId])
      else
        ({ st with players := alistInsert targetId { target with health := newHealth } st.players },
         [ServerEvent.healthUpdate targetId newHealth])

/-- The wire payload of a `playerJoin` event as the handler reads it.
String slots are `none` when absent or not a string; position coordinates
are `some v` for a number-typed value (the handler's only check there is
`typeof === 'number'`) and `none` otherwise. -/
structure JoinData where
  name : Option String := none
  characterType : Option String := none
  swordType : Option String := none
  sessionId : Option String := none
  position : Option (Option ℚ × Option ℚ × Option ℚ) := none
deriving DecidableEq, Repr

/-- Name sanitation in the playerJoin handler (server.js lines 317-325):
an absent, empty or all-whitespace name becomes the generated fallback,
anything else is trimmed. -/
def sanitizeName (socketId : String) (raw : Option String) : String :=
  match raw with
  | none => "Player_" ++ socketId.take 5
  | some n => if n.trim = "" then "Player_" ++ socketId.take 5 else n.trim

/-- JavaScript `Set.add` on the embedded `activeSessions` set. -/
def addSession (sessions : List String) (s : String) : List String :=
  if s ∈ sessions then sessions else sessions ++ [s]

/-- The `playerJoin` handler (server.js lines 301-419). In emission order:
`playerJoined` to the other clients, a `playerUpdated` when the join changed
the display name, and the `existingPlayers` snapshot to the joining client.
State effects: the sessionId (when truthy) is added to `activeSessions`;
the socket's record is overwritten in place and marked fully registered;
the socket is dropped from `potentialGhostPlayers`; and every *other*
record sharing the sanitized display name is marked as a potential ghost
with `firstDetectedAt := now`. No record is removed here, and no lookup by
`sessionId` is performed anywhere in the handler. `playerJoin` fires only
for a connected socket, whose record the connection handler has already
created; the `getD` fallback keeps the function total. -/
def playerJoin (st : ServerState) (socketId : String) (data : JoinData) (now : ℤ) :
    ServerState × List ServerEvent :=
  let sessions := match data.sessionId with
    | some s => if s = "" then st.activeSessions else addSession st.activeSessions s
    | none => st.activeSessions
  let playerName := sanitizeName socketId data.name
  let prior := alistGet socketId st.players
  let isNameChange : Bool := match prior with
    | some p => p.name != playerName
    | none => false
  let base := prior.getD (initialPlayerRecord socketId now)
  let rec₀ := { base with
    id := socketId
    name := playerName
    characterType := jsStringOr data.characterType "knight"
    swordType := some (jsStringOr data.swordType "broadsword")
    fullyRegistered := true
    autoRegistered := some false
    explicitlyRegistered := some true
    lastActivity := now
    sessionId := jsStringOrNull data.sessionId }
  let joined := match data.position with
    | some (px, py, pz) =>
        { rec₀ with position := ⟨px.getD 0, py.getD 0, pz.getD 0⟩ }
    | none => rec₀
  let players₁ := alistInsert socketId joined st.players
  let ghosts₁ := alistRemove socketId st.potentialGhostPlayers
  let dupIds := (players₁.filter (fun p => p.1 ≠ socketId ∧ p.2.name = playerName)).map (·.1)
  let ghosts₂ := dupIds.foldl (fun g i => alistInsert i ⟨now, playerName⟩ g) ghosts₁
  (⟨players₁, sessions, ghosts₂⟩,
   [ServerEvent.playerJoined joined]
     ++ (if isNameChange then [ServerEvent.playerUpdated (broadcastOf socketId joined)] else [])
     ++ [ServerEvent.existingPlayers (sendExistingPlayersToClient players₁)])

/-- The wire payload of a `playerUpdate` event as the handler reads it.
Coordinates and the rotation keep their raw runtime nature (`JSNum`);
string and boolean slots are `none` when absent or of the wrong type. -/
structure UpdateData where
  position : Option (JSNum × JSNum × JSNum) := none
  rotation : Option JSNum := none
  isAttacking : Option Bool := none
  isBlocking : Option Bool := none
  swordType : Option String := none
  name : Option String := none
  characterType : Option String := none
deriving DecidableEq, Repr

/-- The position block of the playerUpdate handler (server.js
lines 464-497): the position delta is applied only when all three
coordinates pass `typeof === 'number' && !isNaN && isFinite`; otherwise
the stored position is left untouched. -/
def applyPositionDelta (p : PlayerRecord) (pos : Option (JSNum × JSNum × JSNum)) : PlayerRecord :=
  match pos with
  | some (cx, cy, cz) =>
      match cx, cy, cz with
      | .num vx, .num vy, .num vz => { p with position := ⟨vx, vy, vz⟩ }
      | _, _, _ => p
  | none => p

/-- The rotation block (server.js lines 503-506): applied only for a
finite number. -/
def applyRotationDelta (p : PlayerRecord) (rot : Option JSNum) : PlayerRecord :=
  match rot with
  | some (.num v) => { p with rotation := v }
  | _ => p

/-- The attack-flag block (server.js lines 509-512): applied only for a
boolean-typed value. -/
def applyAttackFlag (p : PlayerRecord) (b : Option Bool) : PlayerRecord :=
  match b with
  | some v => { p with isAttacking := some v }
  | none => p

/-- The blocking-flag block (server.js lines 515-518). -/
def applyBlockFlag (p : PlayerRecord) (b : Option Bool) : PlayerRecord :=
  match b with
  | some v => { p with isBlocking := some v }
  | none => p

/-- The sword-type block (server.js lines 521-524): applied for a truthy
string. -/
def applySwordDelta (p : PlayerRecord) (s : Option String) : PlayerRecord :=
  match s with
  | some v => if v = "" then p else { p with swordType := some v }
  | none => p

/-- The name block (server.js lines 527-534): applied for a truthy string
whose trim is nonempty. -/
def applyNameDelta (p : PlayerRecord) (s : Option String) : PlayerRecord :=
  match s with
  | some v => if v = "" ∨ v.trim = "" then p else { p with name := v }
  | none => p

/-- The character-type block (server.js lines 537-544): applied for a
truthy string. -/
def applyCharacterDelta (p : PlayerRecord) (s : Option String) : PlayerRecord :=
  match s with
  | some v => if v = "" then p else { p with characterType := v }
  | none => p

/-- The `playerUpdate` handler (server.js lines 454-564). For an unknown
socket it returns unchanged with no broadcast. Otherwise it first stamps
`lastActivity := now`, then applies each delta field that passes its own
validation (each block above), and finally always broadcasts the
resulting record as `playerUpdated`. Nothing here touches
`fullyRegistered`. -/
def playerUpdate (st : ServerState) (socketId : String) (data : UpdateData) (now : ℤ) :
    ServerState × List ServerEvent :=
  match alistGet socketId st.players with
  | none => (st, [])
  | some p₀ =>
      let p₁ := { p₀ with lastActivity := now }
      let p₂ := applyPositionDelta p₁ data.position
      let p₃ := applyRotationDelta p₂ data.rotation
      let p₄ := applyAttackFlag p₃ data.isAttacking
      let p₅ := applyBlockFlag p₄ data.isBlocking
      let p₆ := applySwordDelta p₅ data.swordType
      let p₇ := applyNameDelta p₆ data.name
      let p₈ := applyCharacterDelta p₇ data.characterType
      ({ st with players := alistInsert socketId p₈ st.players },
       [ServerEvent.playerUpdated (broadcastOf socketId p₈)])

/-- The transport-level disconnect handler (server.js lines 676-738):
broadcast `playerLeft`, delete the record and any ghost mark. -/
def disconnectHandler (st : ServerState) (socketId : String) : ServerState × List ServerEvent :=
  match alistGet socketId st.players with
  | none => (st, [])
  | some p =>
      ({ st with
          players := alistRemove socketId st.players
          potentialGhostPlayers := alistRemove socketId st.potentialGhostPlayers },
       [ServerEvent.playerLeft socketId p.name "disconnect"])

/-- Accumulator for the server ghost sweep's pass over the registry. -/
structure SweepAcc where
  players : List (String × PlayerRecord)
  ghosts : List (String × GhostMark)
  events : List ServerEvent

/-- One registry entry of the server ghost sweep (server.js lines 131-178).
The effective last activity is `lastActivity || joinedAt` (a zero timestamp
is falsy in JavaScript). An entry inactive for more than 30000 ms is marked
as a potential ghost if not yet marked, and is removed — with a `playerLeft`
broadcast — when inactive for more than 120000 ms or first marked more than
60000 ms ago; an entry within the 30000 ms window is kept and its ghost
mark, if any, cleared. -/
def sweepStep (now : ℤ) (acc : SweepAcc) (entry : String × PlayerRecord) : SweepAcc :=
  let lastActivity := if entry.2.lastActivity = 0 then entry.2.joinedAt else entry.2.lastActivity
  let inactiveDuration := now - lastActivity
  if inactiveDuration > 30000 then
    let ghosts₁ := match alistGet entry.1 acc.ghosts with
      | some _ => acc.ghosts
      | none => alistInsert entry.1 ⟨now, entry.2.name⟩ acc.ghosts
    let confirmed : Bool := decide (inactiveDuration > 120000) ||
      (match alistGet entry.1 ghosts₁ with
       | some g => decide (now - g.firstDetectedAt > 60000)
       | none => false)
    if confirmed then
      { players := acc.players
        ghosts := alistRemove entry.1 ghosts₁
        events := acc.events ++ [ServerEvent.playerLeft entry.1 entry.2.name "ghost_cleanup"] }
    else
      { acc with
          players := acc.players ++ [entry]
          ghosts := ghosts₁ }
  else
    { acc with
        players := acc.players ++ [entry]
        ghosts := alistRemove entry.1 acc.ghosts }

/-- The server ghost sweep `cleanupGhostPlayers` (server.js lines 122-185),
run every 15 s. It consults only inactivity durations and the
`potentialGhostPlayers` marks; no transport-level active-connection signal
exists in this sweep. -/
def cleanupGhostPlayersServer (st : ServerState) (now : ℤ) : ServerState × List ServerEvent :=
  let acc := st.players.foldl (sweepStep now) ⟨[], st.potentialGhostPlayers, []⟩
  ({ st with players := acc.players, potentialGhostPlayers := acc.ghosts }, acc.events)

/-- The client-side shadow of one remote player (an entry of
`this.remotePlayers` in multiplayer.js), together with the rendered
position of its scene mesh. `meshPosition` embeds `playerMesh.position`
of the player's mesh, which `updateRemotePlayer` snaps and
`interpolatePlayerPositions` moves; `position` mirrors
`remotePlayer.position`, `targetPosition` the latest authoritative value.
`lastUpdateTimeMs` embeds `_lastUpdateTime` (ghost detection) and
`lastPositionUpdateTime` the interpolation clock of the same name. -/
structure RemotePlayer where
  name : String
  characterType : String
  swordType : Option String := none
  health : Option ℚ := none
  rotation : Option ℚ := none
  position : Option Vec3 := none
  targetPosition : Option Vec3 := none
  lastUpdateTimeMs : Option ℤ := none
  lastPositionUpdateTime : Option ℤ := none
  meshPosition : Vec3 := ⟨0, 0, 0⟩
deriving DecidableEq, Repr

/-- A `playerUpdated` payload as the client's `updateRemotePlayer` reads it.
Position coordinates keep their raw runtime nature (`JSNum`). The
`timestamp` field is the server stamp carried by every update; the client
reads it only to feed the latency tracker and never consults it when
applying the update. The rotation and health slots are embedded for the
number-typed finite case (`some`), `none` otherwise. -/
structure RemoteUpdateData where
  name : Option String := none
  characterType : Option String := none
  position : Option (JSNum × JSNum × JSNum) := none
  swordType : Option String := none
  rotation : Option ℚ := none
  health : Option ℚ := none
  timestamp : Option ℤ := none
deriving DecidableEq, Repr

/-- The name block of the client's `updateRemotePlayer` (multiplayer.js
lines 2038-2043): a truthy name is stored. -/
def applyRemoteName (p : RemotePlayer) (n : Option String) : RemotePlayer :=
  match n with
  | some v => if v = "" then p else { p with name := v }
  | none => p

/-- The position block of the client's `updateRemotePlayer`
(multiplayer.js lines 2081-2138). For a position whose three coordinates
are all finite numbers: store it as `targetPosition`; when no prior
position exists or any single per-axis distance between the rendered mesh
position and the new value exceeds 5, snap the mesh and the stored
position to it; and stamp `lastPositionUpdateTime`. Anything else leaves
the shadow untouched. -/
def applyRemotePosition (p : RemotePlayer) (pos : Option (JSNum × JSNum × JSNum)) (now : ℤ) :
    RemotePlayer :=
  match pos with
  | some (cx, cy, cz) =>
      match cx, cy, cz with
      | .num vx, .num vy, .num vz =>
          let target : Vec3 := ⟨vx, vy, vz⟩
          let q₁ := { p with targetPosition := some target }
          let snap : Bool := q₁.position.isNone
            || decide (|q₁.meshPosition.x - vx| > 5)
            || decide (|q₁.meshPosition.y - vy| > 5)
            || decide (|q₁.meshPosition.z - vz| > 5)
          let q₂ := if snap then { q₁ with meshPosition := target, position := some target } else q₁
          { q₂ with lastPositionUpdateTime := some now }
      | _, _, _ => p
  | none => p

/-- The sword-type block (multiplayer.js lines 2141-2151). -/
def applyRemoteSword (p : RemotePlayer) (s : Option String) : RemotePlayer :=
  match s with
  | some v => if v = "" then p else { p with swordType := some v }
  | none => p

/-- The character-type block (multiplayer.js lines 2154-2173). -/
def applyRemoteCharacter (p : RemotePlayer) (s : Option String) : RemotePlayer :=
  match s with
  | some v => if v = "" then p else { p with characterType := v }
  | none => p

/-- The rotation block (multiplayer.js lines 2176-2182), for the
number-typed finite case. -/
def applyRemoteRotation (p : RemotePlayer) (r : Option ℚ) : RemotePlayer :=
  match r with
  | some v => { p with rotation := some v }
  | none => p

/-- The health block (multiplayer.js lines 2185-2192), for the
number-typed finite case. -/
def applyRemoteHealth (p : RemotePlayer) (h : Option ℚ) : RemotePlayer :=
  match h with
  | some v => { p with health := some v }
  | none => p

/-- The client's `updateRemotePlayer` (multiplayer.js lines 2021-2193),
state effects on one shadow (mesh creation/visibility and logging are
rendering glue and omitted). In source order: stamp `_lastUpdateTime`,
then apply the name, position, sword-type, character-type, rotation and
health blocks above. The payload's `timestamp` is never read here:
updates are applied in arrival order. -/
def updateRemotePlayer (p : RemotePlayer) (data : RemoteUpdateData) (now : ℤ) : RemotePlayer :=
  let p₁ := { p with lastUpdateTimeMs := some now }
  let p₂ := applyRemoteName p₁ data.name
  let p₃ := applyRemotePosition p₂ data.position now
  let p₄ := applyRemoteSword p₃ data.swordType
  let p₅ := applyRemoteCharacter p₄ data.characterType
  let p₆ := applyRemoteRotation p₅ data.rotation
  applyRemoteHealth p₆ data.health

/-- One remote player's step of the interpolation tick
`interpolatePlayerPositions` (multiplayer.js lines 3536-3601). The shadow
is skipped without `targetPosition` and `position`. The window is
`this._interpolationTime || 100`; `factor = min((now - lastUpdate)/window, 1)`.
For `factor < 1` the mesh and the stored position move linearly toward the
target by `factor`; at `factor = 1` with any coordinate still more than
0.01 away, both snap exactly to the target. -/
def interpolateRemotePlayer (p : RemotePlayer) (interpolationTime : Option ℚ) (now : ℤ) :
    RemotePlayer :=
  match p.targetPosition, p.position with
  | some tp, some _ =>
      let targetTime := match interpolationTime with
        | some t => if t = 0 then 100 else t
        | none => 100
      let timeSinceUpdate : ℚ := (now : ℚ) - ((p.lastPositionUpdateTime.getD 0 : ℤ) : ℚ)
      let factor := min (timeSinceUpdate / targetTime) 1
      if factor < 1 then
        let moved : Vec3 :=
          ⟨p.meshPosition.x + (tp.x - p.meshPosition.x) * factor,
           p.meshPosition.y + (tp.y - p.meshPosition.y) * factor,
           p.meshPosition.z + (tp.z - p.meshPosition.z) * factor⟩
        { p with meshPosition := moved, position := some moved }
      else if factor = 1 ∧ (|p.meshPosition.x - tp.x| > 1/100 ∨
          |p.meshPosition.y - tp.y| > 1/100 ∨ |p.meshPosition.z - tp.z| > 1/100) then
        { p with meshPosition := tp, position := some tp }
      else p
  | _, _ => p

/-- One entry of the client ghost sweep `cleanupGhostPlayers`
(multiplayer.js lines 267-307), accumulating the removal set. An entry
updated less than 10000 ms ago is skipped outright; otherwise it is removed
when inactive for more than 120000 ms, or when inactive for more than
60000 ms and absent from the server-reported active-player ids. An entry
with no recorded update time fails every removal test and is kept. (The
source also computes an `isDifferentSession` flag that never feeds the
removal decision.) -/
def clientGhostStep (activePlayerIds : List String) (now : ℤ)
    (acc : List String) (entry : String × RemotePlayer) : List String :=
  match entry.2.lastUpdateTimeMs with
  | some t =>
      if now - t < 10000 then acc
      else if now - t > 120000 then acc ++ [entry.1]
      else if now - t > 60000 ∧ entry.1 ∉ activePlayerIds then acc ++ [entry.1]
      else acc
  | none => acc

/-- The ids the client ghost sweep removes on one run (multiplayer.js
lines 250-332). -/
def cleanupGhostPlayersClient (remotePlayers : List (String × RemotePlayer))
    (activePlayerIds : List String) (now : ℤ) : List String :=
  remotePlayers.foldl (clientGhostStep activePlayerIds now) []

/-- Network quality classification levels (multiplayer.js `qualityLevel`). -/
inductive QualityLevel where
  | excellent
  | good
  | fair
  | poor
  | unknown
deriving DecidableEq, Repr

/-- The latency tracker `_trackLatency` (multiplayer.js lines 3623-3637):
non-numbers, NaN and negatives are skipped; samples append to a ring
buffer that drops the oldest beyond 50 entries. -/
def trackLatency (latencies : List ℚ) (sample : JSNum) : List ℚ :=
  match sample with
  | .num v =>
      if v < 0 then latencies
      else
        let pushed := latencies ++ [v]
        if 50 < pushed.length then pushed.drop 1 else pushed
  | _ => latencies

/-- Mean of the buffered latency samples (multiplayer.js lines 3646-3647). -/
def averageLatency (latencies : List ℚ) : ℚ :=
  latencies.sum / latencies.length

/-- Sum of absolute consecutive deltas (the loop of multiplayer.js
lines 3650-3653). -/
def sumConsecutiveDeltas : List ℚ → ℚ
  | a :: b :: rest => |b - a| + sumConsecutiveDeltas (b :: rest)
  | _ => 0

/-- Jitter: mean absolute consecutive delta, 0 with fewer than two samples
(multiplayer.js line 3654). -/
def jitterOf (latencies : List ℚ) : ℚ :=
  if 1 < latencies.length then sumConsecutiveDeltas latencies / ((latencies.length : ℚ) - 1)
  else 0

/-- The classification ladder of `_assessNetworkQuality` (multiplayer.js
lines 3657-3665). -/
def classifyQuality (avg jitter : ℚ) : QualityLevel :=
  if avg < 50 ∧ jitter < 10 then .excellent
  else if avg < 100 ∧ jitter < 20 then .good
  else if avg < 200 ∧ jitter < 50 then .fair
  else .poor

/-- The periodic assessment `_assessNetworkQuality` (multiplayer.js
lines 3639-3680): with at least one buffered sample the quality becomes
the classification of the computed mean and jitter; with none the previous
level (initially `unknown`) stands. -/
def assessNetworkQuality (latencies : List ℚ) (previous : QualityLevel) : QualityLevel :=
  if 0 < latencies.length then classifyQuality (averageLatency latencies) (jitterOf latencies)
  else previous

/-- The window chosen by `_adjustInterpolationSettings` (multiplayer.js
lines 3682-3706), in milliseconds. -/
def interpolationTimeFor : QualityLevel → ℚ
  | .excellent => 50
  | .good => 100
  | .fair => 150
  | .poor => 200
  | .unknown => 100

/-! ### Derived observations and concrete scenarios used by the theorems -/

/-- The ids of the fully registered records carrying a given sessionId. -/
def registeredWithSession (st : ServerState) (s : String) : List String :=
  (st.players.filter (fun p => p.2.fullyRegistered ∧ p.2.sessionId = some s)).map (·.1)

/-- A value lies strictly between two others (in either direction). -/
def strictlyBetween (a b c : ℚ) : Prop :=
  (a < b ∧ b < c) ∨ (c < b ∧ b < a)

/-- Reconnect scenario, first half: socket `sockA` connects and joins as
"Rin" with sessionId "s1". Its transport then dies abruptly, so no
`disconnect` event ever reaches the server and the record lingers. -/
def reconnectMid : ServerState :=
  (playerJoin (connectHandler ⟨[], [], []⟩ "sockA" 1000) "sockA"
    { name := some "Rin", characterType := some "knight", swordType := some "broadsword",
      sessionId := some "s1" } 2000).1

/-- Reconnect scenario, second half: the same client reconnects as socket
`sockB` and registers again with the previously-seen sessionId "s1". -/
def reconnectFinal : ServerState :=
  (playerJoin (connectHandler reconnectMid "sockB" 3000) "sockB"
    { name := some "Rin", characterType := some "knight", swordType := some "broadsword",
      sessionId := some "s1" } 4000).1

/-- Damage scenario: a registry holding one registered player `t` at the
initial health of 100. -/
def damagedRegistry : ServerState :=
  ⟨[("t", { initialPlayerRecord "t" 0 with fullyRegistered := true })], [], []⟩

/-- Damage 150 applied to `t` at health 100. -/
def firstDamage : ServerState × List ServerEvent :=
  playerDamaged damagedRegistry "t" 150

/-- A redundant damage 10 applied to `t` while its stored health is 0. -/
def secondDamage : ServerState × List ServerEvent :=
  playerDamaged firstDamage.1 "t" 10

/-- A remote-player shadow rendered at the origin with its stored and
target positions both at the origin. -/
def shadowAtOrigin : RemotePlayer :=
  { name := "R"
    characterType := "knight"
    position := some ⟨0, 0, 0⟩
    targetPosition := some ⟨0, 0, 0⟩
    meshPosition := ⟨0, 0, 0⟩ }

/-- Out-of-order scenario: the update stamped 100 arrives first and is
applied to the origin shadow. -/
def staleFirst : RemotePlayer :=
  updateRemotePlayer shadowAtOrigin
    { position := some (.num 1, .num 0, .num 0), timestamp := some 100 } 500

/-- Out-of-order scenario: the update stamped 80 (older than 100) arrives
second and is applied after the one stamped 100. -/
def staleSecond : RemotePlayer :=
  updateRemotePlayer staleFirst
    { position := some (.num 2, .num 0, .num 0), timestamp := some 80 } 501

/-- Snap scenario: an authoritative position (4, 4, 0) applied to the
origin shadow — Euclidean distance √32 > 5 from the rendered position,
yet no single coordinate differs by more than 5. -/
def diagonalUpdated : RemotePlayer :=
  updateRemotePlayer shadowAtOrigin
    { position := some (.num 4, .num 4, .num 0), timestamp := some 100 } 100

/-- Snapshot scenario: requester `a` and player `b` fully registered,
player `c` still provisional. -/
def snapshotRegistry : List (String × PlayerRecord) :=
  [("a", { initialPlayerRecord "a" 0 with fullyRegistered := true }),
   ("b", { initialPlayerRecord "b" 0 with fullyRegistered := true }),
   ("c", initialPlayerRecord "c" 0)]

/-- A server that has just accepted one connection `a` at time 0: its
record is provisional and its lastActivity is the connection time 0. -/
def freshServer : ServerState := connectHandler ⟨[], [], []⟩ "a" 0

/-- An update whose position carries NaN in the x slot, handled at time 5. -/
def invalidPositionRun : ServerState × List ServerEvent :=
  playerUpdate freshServer "a" { position := some (.nan, .num 0, .num 0) } 5

/-- An accepted (fully valid) update applied to the provisional record
`a`, handled at time 5. -/
def validPositionRun : ServerState × List ServerEvent :=
  playerUpdate freshServer "a" { position := some (.num 1, .num 2, .num 3) } 5

/-! ### Association-list facts -/

/-- Looking up the key just inserted yields the inserted value. -/
theorem alistGet_insert_self {α : Type} (k : String) (v : α) (l : List (String × α)) :
    alistGet k (alistInsert k v l) = some v := by
  induction l with
  | nil => simp [alistInsert, alistGet]
  | cons hd tl ih =>
      obtain ⟨k', v'⟩ := hd
      by_cases hk : k' = k
      · simp [alistInsert, hk, alistGet]
      · simp [alistInsert, hk, alistGet, ih]

/-- Insertion at one key leaves every other key's lookup unchanged. -/
theorem alistGet_insert_ne {α : Type} {k k' : String} (h : k' ≠ k) (v : α)
    (l : List (String × α)) : alistGet k' (alistInsert k v l) = alistGet k' l := by
  induction l with
  | nil => simp [alistInsert, alistGet, h, Ne.symm h]
  | cons hd tl ih =>
      obtain ⟨k₁, v₁⟩ := hd
      by_cases hk : k₁ = k
      · subst hk
        simp [alistInsert, alistGet, h, Ne.symm h]
      · by_cases hk' : k₁ = k'
        · simp [alistInsert, hk, alistGet, hk', h]
        · simp [alistInsert, hk, alistGet, hk', ih]

/-- A successful lookup exhibits a member of the list. -/
theorem alistGet_mem {α : Type} {k : String} {v : α} :
    ∀ {l : List (String × α)}, alistGet k l = some v → (k, v) ∈ l := by
  intro l
  induction l with
  | nil => simp [alistGet]
  | cons hd tl ih =>
      obtain ⟨k₁, v₁⟩ := hd
      by_cases hk : k₁ = k
      · subst hk
        simp [alistGet]
        intro h
        exact Or.inl h.symm
      · simp [alistGet, hk]
        intro h
        exact Or.inr (ih h)

/-- Folding the same value into a list of keys makes every one of those
keys (and every key already mapped to that value) look it up. -/
theorem alistGet_foldl_insert {α : Type} (v : α) :
    ∀ (ids : List String) (g : List (String × α)) (i : String),
      i ∈ ids ∨ alistGet i g = some v →
      alistGet i (ids.foldl (fun acc j => alistInsert j v acc) g) = some v := by
  intro ids
  induction ids with
  | nil =>
      intro g i h
      rcases h with h | h
      · simp at h
      · simpa using h
  | cons j tl ih =>
      intro g i h
      simp only [List.foldl_cons]
      rcases h with h | h
      · rcases List.mem_cons.mp h with rfl | hm
        · exact ih _ _ (Or.inr (alistGet_insert_self i v g))
        · exact ih _ _ (Or.inl hm)
      · by_cases hij : i = j
        · subst hij
          exact ih _ _ (Or.inr (alistGet_insert_self i v g))
        · refine ih _ _ (Or.inr ?_)
          rw [alistGet_insert_ne hij]
          exact h

/-! ### Frame facts about the playerUpdate delta blocks -/

/-- The position block never touches the registration state. -/
theorem applyPositionDelta_fullyRegistered (p : PlayerRecord)
    (pos : Option (JSNum × JSNum × JSNum)) :
    (applyPositionDelta p pos).fullyRegistered = p.fullyRegistered := by
  unfold applyPositionDelta
  split
  · split <;> rfl
  · rfl

/-- The rotation block never touches the registration state. -/
theorem applyRotationDelta_fullyRegistered (p : PlayerRecord) (rot : Option JSNum) :
    (applyRotationDelta p rot).fullyRegistered = p.fullyRegistered := by
  unfold applyRotationDelta
  split <;> rfl

/-- The attack-flag block never touches the registration state. -/
theorem applyAttackFlag_fullyRegistered (p : PlayerRecord) (b : Option Bool) :
    (applyAttackFlag p b).fullyRegistered = p.fullyRegistered := by
  unfold applyAttackFlag
  split <;> rfl

/-- The blocking-flag block never touches the registration state. -/
theorem applyBlockFlag_fullyRegistered (p : PlayerRecord) (b : Option Bool) :
    (applyBlockFlag p b).fullyRegistered = p.fullyRegistered := by
  unfold applyBlockFlag
  split <;> rfl

/-- The sword-type block never touches the registration state. -/
theorem applySwordDelta_fullyRegistered (p : PlayerRecord) (s : Option String) :
    (applySwordDelta p s).fullyRegistered = p.fullyRegistered := by
  unfold applySwordDelta
  split
  · split <;> rfl
  · rfl

/-- The name block never touches the registration state. -/
theorem applyNameDelta_fullyRegistered (p : PlayerRecord) (s : Option String) :
    (applyNameDelta p s).fullyRegistered = p.fullyRegistered := by
  unfold applyNameDelta
  split
  · split <;> rfl
  · rfl

/-- The character-type block never touches the registration state. -/
theorem applyCharacterDelta_fullyRegistered (p : PlayerRecord) (s : Option String) :
    (applyCharacterDelta p s).fullyRegistered = p.fullyRegistered := by
  unfold applyCharacterDelta
  split
  · split <;> rfl
  · rfl

/-! ### Frame facts about the client update blocks -/

/-- The remote name block leaves the position state of the shadow alone. -/
theorem applyRemoteName_proj (p : RemotePlayer) (n : Option String) :
    (applyRemoteName p n).targetPosition = p.targetPosition ∧
    (applyRemoteName p n).meshPosition = p.meshPosition ∧
    (applyRemoteName p n).position = p.position := by
  rcases n with _ | v
  · simp [applyRemoteName]
  · by_cases hv : v = "" <;> simp [applyRemoteName, hv]

/-- The remote sword block leaves the position state of the shadow alone. -/
theorem applyRemoteSword_proj (p : RemotePlayer) (s : Option String) :
    (applyRemoteSword p s).targetPosition = p.targetPosition ∧
    (applyRemoteSword p s).meshPosition = p.meshPosition ∧
    (applyRemoteSword p s).position = p.position := by
  rcases s with _ | v
  · simp [applyRemoteSword]
  · by_cases hv : v = "" <;> simp [applyRemoteSword, hv]

/-- The remote character block leaves the position state of the shadow alone. -/
theorem applyRemoteCharacter_proj (p : RemotePlayer) (s : Option String) :
    (applyRemoteCharacter p s).targetPosition = p.targetPosition ∧
    (applyRemoteCharacter p s).meshPosition = p.meshPosition ∧
    (applyRemoteCharacter p s).position = p.position := by
  rcases s with _ | v
  · simp [applyRemoteCharacter]
  · by_cases hv : v = "" <;> simp [applyRemoteCharacter, hv]

/-- The remote rotation block leaves the position state of the shadow alone. -/
theorem applyRemoteRotation_proj (p : RemotePlayer) (r : Option ℚ) :
    (applyRemoteRotation p r).targetPosition = p.targetPosition ∧
    (applyRemoteRotation p r).meshPosition = p.meshPosition ∧
    (applyRemoteRotation p r).position = p.position := by
  rcases r with _ | v <;> simp [applyRemoteRotation]

/-- The remote health block leaves the position state of the shadow alone. -/
theorem applyRemoteHealth_proj (p : RemotePlayer) (h : Option ℚ) :
    (applyRemoteHealth p h).targetPosition = p.targetPosition ∧
    (applyRemoteHealth p h).meshPosition = p.meshPosition ∧
    (applyRemoteHealth p h).position = p.position := by
  rcases h with _ | v <;> simp [applyRemoteHealth]

/-- An all-finite position payload always lands in `targetPosition`. -/
theorem applyRemotePosition_valid_target (p : RemotePlayer) (x y z : ℚ) (now : ℤ) :
    (applyRemotePosition p (some (.num x, .num y, .num z)) now).targetPosition
        = some ⟨x, y, z⟩ := by
  simp only [applyRemotePosition]
  split <;> rfl

/-- The rendered position snaps to an all-finite payload exactly when no
prior position exists or some single coordinate differs by more than 5. -/
theorem applyRemotePosition_snap (p : RemotePlayer) (x y z : ℚ) (now : ℤ) :
    (applyRemotePosition p (some (.num x, .num y, .num z)) now).meshPosition
        = if p.position = none ∨ |p.meshPosition.x - x| > 5 ∨ |p.meshPosition.y - y| > 5
            ∨ |p.meshPosition.z - z| > 5
          then ⟨x, y, z⟩ else p.meshPosition := by
  simp only [applyRemotePosition]
  by_cases h0 : p.position = none <;>
    by_cases hx : |p.meshPosition.x - x| > 5 <;>
      by_cases hy : |p.meshPosition.y - y| > 5 <;>
        by_cases hz : |p.meshPosition.z - z| > 5 <;>
          simp [h0, hx, hy, hz, Option.isNone_iff_eq_none]

/-- Applying `updateRemotePlayer` with an all-finite position payload
always stores exactly that payload as the target, whatever the carried
timestamp and the rest of the payload. -/
theorem updateRemotePlayer_target (p : RemotePlayer) (d : RemoteUpdateData) (now : ℤ)
    (x y z : ℚ) (h : d.position = some (.num x, .num y, .num z)) :
    (updateRemotePlayer p d now).targetPosition = some ⟨x, y, z⟩ := by
  unfold updateRemotePlayer
  rw [h]
  rw [(applyRemoteHealth_proj _ _).1, (applyRemoteRotation_proj _ _).1,
    (applyRemoteCharacter_proj _ _).1, (applyRemoteSword_proj _ _).1,
    applyRemotePosition_valid_target]

/-- Linear interpolation with a factor strictly inside (0, 1) lands
strictly between distinct endpoints. -/
theorem lerp_strictlyBetween (a c f : ℚ) (h0 : 0 < f) (h1 : f < 1) (hne : a ≠ c) :
    strictlyBetween a (a + (c - a) * f) c := by
  rcases lt_or_gt_of_ne hne with h | h
  · left
    constructor <;> nlinarith
  · right
    constructor <;> nlinarith

/-! ### Facts about the ghost sweeps -/

/-- A client sweep entry updated within the last 10 s contributes nothing
to the removal set. -/
theorem clientGhostStep_recent (a : List String) (now : ℤ) (acc : List String)
    (e : String × RemotePlayer) (t : ℤ) (ht : e.2.lastUpdateTimeMs = some t)
    (hrec : now - t < 10000) : clientGhostStep a now acc e = acc := by
  unfold clientGhostStep
  rw [ht]
  simp [hrec]

/-- A client sweep step only ever adds the processed entry's own id. -/
theorem clientGhostStep_sub (a : List String) (now : ℤ) (acc : List String)
    (e : String × RemotePlayer) :
    ∀ x ∈ clientGhostStep a now acc e, x ∈ acc ∨ x = e.1 := by
  intro x hx
  unfold clientGhostStep at hx
  rcases h : e.2.lastUpdateTimeMs with _ | t
  · rw [h] at hx
    exact Or.inl hx
  · rw [h] at hx
    simp only [] at hx
    split_ifs at hx <;> simp_all

/-- A key carried by no entry of the remaining list is never added by the
client sweep fold. -/
theorem client_fold_no_new_key (a : List String) (now : ℤ) :
    ∀ (l : List (String × RemotePlayer)) (acc : List String) (id : String),
      id ∉ acc → id ∉ l.map Prod.fst →
      id ∉ l.foldl (clientGhostStep a now) acc := by
  intro l
  induction l with
  | nil =>
      intro acc id hacc _
      simpa using hacc
  | cons e tl ih =>
      intro acc id hacc hkeys
      simp only [List.map_cons, List.mem_cons] at hkeys
      push_neg at hkeys
      simp only [List.foldl_cons]
      refine ih _ _ ?_ (by simpa using hkeys.2)
      intro hx
      rcases clientGhostStep_sub a now acc e id hx with h | h
      · exact hacc h
      · exact hkeys.1 h

/-- Over a registry with distinct keys, the client sweep never removes an
entry updated within the last 10 s. -/
theorem client_grace_not_removed (a : List String) (now : ℤ) :
    ∀ (l : List (String × RemotePlayer)) (acc : List String) (id : String)
      (p : RemotePlayer) (t : ℤ),
      (l.map Prod.fst).Nodup → (id, p) ∈ l → p.lastUpdateTimeMs = some t →
      now - t < 10000 → id ∉ acc →
      id ∉ l.foldl (clientGhostStep a now) acc := by
  intro l
  induction l with
  | nil =>
      intro acc id p t _ hmem
      simp at hmem
  | cons e tl ih =>
      intro acc id p t hnd hmem ht hrec hacc
      simp only [List.map_cons, List.nodup_cons] at hnd
      simp only [List.foldl_cons]
      rcases List.mem_cons.mp hmem with he | hm
      · have hstep : clientGhostStep a now acc e = acc := by
          apply clientGhostStep_recent a now acc e t _ hrec
          rw [← he]
          exact ht
        rw [hstep]
        apply client_fold_no_new_key a now tl acc id hacc
        have : e.1 = id := by rw [← he]
        rw [← this]
        exact hnd.1
      · have hne : id ≠ e.1 := by
          intro hcontra
          apply hnd.1
          have : id ∈ tl.map Prod.fst := List.mem_map.mpr ⟨(id, p), hm, rfl⟩
          rw [← hcontra]
          exact this
        refine ih _ _ _ _ hnd.2 hm ht hrec ?_
        intro hx
        rcases clientGhostStep_sub a now acc e id hx with h | h
        · exact hacc h
        · exact hne h

/-- One server sweep step never loses an entry already kept. -/
theorem sweepStep_players_mono (now : ℤ) (acc : SweepAcc) (e : String × PlayerRecord) :
    ∀ x ∈ acc.players, x ∈ (sweepStep now acc e).players := by
  intro x hx
  unfold sweepStep
  repeat' split
  all_goals try simp_all [List.mem_append]
  all_goals split_ifs <;> simp_all [List.mem_append]

/-- The server sweep fold never loses an entry already kept. -/
theorem sweep_fold_players_mono (now : ℤ) :
    ∀ (l : List (String × PlayerRecord)) (acc : SweepAcc) (x : String × PlayerRecord),
      x ∈ acc.players → x ∈ (l.foldl (sweepStep now) acc).players := by
  intro l
  induction l with
  | nil =>
      intro acc x hx
      simpa using hx
  | cons e tl ih =>
      intro acc x hx
      simp only [List.foldl_cons]
      exact ih _ _ (sweepStep_players_mono now acc e x hx)

/-- The server sweep fold keeps every record whose effective last
activity is within the 30 s inactivity threshold. -/
theorem server_grace_kept (now : ℤ) :
    ∀ (l : List (String × PlayerRecord)) (acc : SweepAcc) (id : String) (p : PlayerRecord),
      (id, p) ∈ l →
      now - (if p.lastActivity = 0 then p.joinedAt else p.lastActivity) ≤ 30000 →
      (id, p) ∈ (l.foldl (sweepStep now) acc).players := by
  intro l
  induction l with
  | nil =>
      intro acc id p hmem
      simp at hmem
  | cons e tl ih =>
      intro acc id p hmem hla
      simp only [List.foldl_cons]
      rcases List.mem_cons.mp hmem with he | hm
      · subst he
        apply sweep_fold_players_mono
        unfold sweepStep
        rw [if_neg (not_lt.mpr hla)]
        simp
      · exact ih _ _ _ hm hla

/-! ### The claims -/

/-- C1 (amended): on a playerJoin — reconnections included — the server
performs no sessionId-based search or removal: the record of every other
socket id is left exactly as it was (no lingering record is removed), and
every other record sharing the sanitized display name is merely flagged in
`potentialGhostPlayers` (with `firstDetectedAt := now`) for the deferred
periodic sweep. -/
theorem C1_reconnect_no_session_cleanup :
    (∀ (st : ServerState) (socketId : String) (data : JoinData) (now : ℤ) (id : String),
      id ≠ socketId →
      alistGet id ((playerJoin st socketId data now).1.players) = alistGet id st.players) ∧
    (∀ (st : ServerState) (socketId : String) (data : JoinData) (now : ℤ)
        (id : String) (p : PlayerRecord),
      id ≠ socketId →
      alistGet id ((playerJoin st socketId data now).1.players) = some p →
      p.name = sanitizeName socketId data.name →
      alistGet id ((playerJoin st socketId data now).1.potentialGhostPlayers)
          = some ⟨now, sanitizeName socketId data.name⟩) := by
  constructor
  · intro st socketId data now id hid
    simp only [playerJoin]
    exact alistGet_insert_ne hid _ _
  · intro st socketId data now id p hid hget hname
    simp only [playerJoin] at hget ⊢
    apply alistGet_foldl_insert
    left
    have hmem := alistGet_mem hget
    simp only [List.mem_map, List.mem_filter]
    refine ⟨(id, p), ⟨hmem, ?_⟩, rfl⟩
    simp [hid, hname]

/-- C1 counterexample: after connect(sockA), join(sockA, "Rin", session
"s1"), an abrupt transport loss that delivers no disconnect event,
connect(sockB) and join(sockB, "Rin", session "s1"), the registry holds
two fully registered records whose sessionId is "s1" — reconciliation
completed (the join handler ran to the end) yet the predecessor was not
removed, contradicting "at most one Registered record with that sessionId
after reconciliation completes". -/
theorem C1_counterexample :
    registeredWithSession reconnectFinal "s1" = ["sockA", "sockB"] ∧
    (registeredWithSession reconnectFinal "s1").length = 2 := by
  constructor <;> decide

/-- C2 (amended): a damage event with amount d on a registered target at
health h stores exactly max(h − d, 0) — never negative — but the
`playerDefeated` broadcast is emitted on every damage event that leaves
the (pre-clamp) health ≤ 0, so a redundant damage event arriving while
the stored health is already 0 emits a further defeat broadcast. -/
theorem C2_health_clamp_and_defeat (st : ServerState) (targetId : String) (damage : ℚ)
    (p : PlayerRecord) (h : alistGet targetId st.players = some p) :
    (alistGet targetId (playerDamaged st targetId damage).1.players).map (·.health)
        = some (max (p.health - damage) 0) ∧
    (ServerEvent.playerDefeated targetId ∈ (playerDamaged st targetId damage).2 ↔
        p.health - damage ≤ 0) := by
  unfold playerDamaged
  rw [h]
  by_cases hd : p.health - damage ≤ 0
  · simp [hd, alistGet_insert_self, max_eq_right hd]
  · have h0 : (0 : ℚ) ≤ p.health - damage := le_of_not_le hd
    simp [hd, alistGet_insert_self, max_eq_left h0]

/-- C2 witness: the clamp-and-defeat characterization evaluated at the
single-player registry with damage 150 against health 100. -/
theorem C2_witness :
    (alistGet "t" (playerDamaged damagedRegistry "t" 150).1.players).map (·.health)
        = some (max (({ initialPlayerRecord "t" 0 with
            fullyRegistered := true } : PlayerRecord).health - 150) 0) ∧
    (ServerEvent.playerDefeated "t" ∈ (playerDamaged damagedRegistry "t" 150).2 ↔
        ({ initialPlayerRecord "t" 0 with
            fullyRegistered := true } : PlayerRecord).health - 150 ≤ 0) :=
  C2_health_clamp_and_defeat damagedRegistry "t" 150 _ (by simp [damagedRegistry, alistGet])

/-- C2 counterexample: damage 150 at health 100 clamps the stored health
to 0 and broadcasts a defeat; a second, redundant damage 10 arriving while
the stored health is already 0 broadcasts `playerDefeated` again — the
claim's "no additional playerDefeated broadcast" fails. -/
theorem C2_counterexample :
    (alistGet "t" firstDamage.1.players).map (·.health) = some 0 ∧
    firstDamage.2 = [ServerEvent.healthUpdate "t" (-50), ServerEvent.playerDefeated "t"] ∧
    secondDamage.2 = [ServerEvent.healthUpdate "t" (-10), ServerEvent.playerDefeated "t"] := by
  refine ⟨?_, ?_, ?_⟩ <;>
    norm_num [firstDamage, secondDamage, damagedRegistry, playerDamaged, alistGet,
      alistInsert, initialPlayerRecord]

/-- C3 (amended): the client applies authoritative updates in arrival
order with no timestamp comparison (last-write-wins): after two updates
applied in order, the stored targetPosition is always the second update's
payload, whatever timestamps the two carried. -/
theorem C3_last_write_wins (p : RemotePlayer) (d₁ d₂ : RemoteUpdateData)
    (now₁ now₂ : ℤ) (x y z : ℚ)
    (h : d₂.position = some (.num x, .num y, .num z)) :
    (updateRemotePlayer (updateRemotePlayer p d₁ now₁) d₂ now₂).targetPosition
        = some ⟨x, y, z⟩ :=
  updateRemotePlayer_target _ d₂ now₂ x y z h

/-- C3 witness: last-write-wins evaluated at the origin shadow with the
timestamp-100 update applied first and the timestamp-80 update second. -/
theorem C3_witness :
    (updateRemotePlayer (updateRemotePlayer shadowAtOrigin
        { position := some (.num 1, .num 0, .num 0), timestamp := some 100 } 500)
        { position := some (.num 2, .num 0, .num 0), timestamp := some 80 } 501).targetPosition
      = some ⟨2, 0, 0⟩ :=
  C3_last_write_wins shadowAtOrigin _ _ 500 501 2 0 0 rfl

/-- C3 counterexample: applying the update stamped 100 (payload (1,0,0))
and then the update stamped 80 (payload (2,0,0)) leaves the stale payload
(2,0,0) as the target, not the later-timestamped payload (1,0,0) — the
claimed out-of-order rejection does not happen. -/
theorem C3_counterexample :
    staleSecond.targetPosition = some ⟨2, 0, 0⟩ ∧
    staleSecond.targetPosition ≠ some ⟨1, 0, 0⟩ := by
  constructor <;>
    norm_num [staleSecond, staleFirst, shadowAtOrigin, updateRemotePlayer,
      applyRemoteName, applyRemotePosition, applyRemoteSword, applyRemoteCharacter,
      applyRemoteRotation, applyRemoteHealth, Vec3.mk.injEq]

/-- C4: a record that received an accepted update within the grace window
of the sweep's current time is never removed by a ghost sweep run,
regardless of the active-connections signal. Client sweep (grace window
10000 ms): over a registry with distinct keys, an entry updated less than
10000 ms ago is absent from the removal set for every active-id list.
Server sweep (inactivity threshold 30000 ms, and no active-connection
signal exists in it): a record whose effective last activity is within
30000 ms of now is still present after the sweep. -/
theorem C4_grace_window_never_swept :
    (∀ (remotePlayers : List (String × RemotePlayer)) (activePlayerIds : List String)
        (now : ℤ) (id : String) (p : RemotePlayer) (t : ℤ),
      (remotePlayers.map Prod.fst).Nodup → (id, p) ∈ remotePlayers →
      p.lastUpdateTimeMs = some t → now - t < 10000 →
      id ∉ cleanupGhostPlayersClient remotePlayers activePlayerIds now) ∧
    (∀ (st : ServerState) (now : ℤ) (id : String) (p : PlayerRecord),
      (id, p) ∈ st.players →
      now - (if p.lastActivity = 0 then p.joinedAt else p.lastActivity) ≤ 30000 →
      (id, p) ∈ (cleanupGhostPlayersServer st now).1.players) := by
  constructor
  · intro remotePlayers activePlayerIds now id p t hnd hmem ht hrec
    exact client_grace_not_removed activePlayerIds now remotePlayers [] id p t hnd hmem ht
      hrec (by simp)
  · intro st now id p hmem hla
    unfold cleanupGhostPlayersServer
    exact server_grace_kept now st.players _ id p hmem hla

/-- C5 (amended): on an all-finite authoritative position update the
rendered position snaps to the target exactly when no prior position
exists or some single coordinate differs by more than 5 (a per-axis test,
not the Euclidean distance); and an interpolation tick whose factor lies
strictly inside (0, 1) moves each rendered coordinate strictly between
its old value and the target. -/
theorem C5_snap_per_axis_and_interpolate :
    (∀ (p : RemotePlayer) (x y z : ℚ) (ts : Option ℤ) (now : ℤ),
      (updateRemotePlayer p { position := some (.num x, .num y, .num z), timestamp := ts }
          now).meshPosition
        = if p.position = none ∨ |p.meshPosition.x - x| > 5 ∨ |p.meshPosition.y - y| > 5
            ∨ |p.meshPosition.z - z| > 5
          then ⟨x, y, z⟩ else p.meshPosition) ∧
    (∀ (p : RemotePlayer) (tp pos : Vec3) (w : ℚ) (now : ℤ),
      p.targetPosition = some tp → p.position = some pos → w ≠ 0 →
      0 < ((now : ℚ) - ((p.lastPositionUpdateTime.getD 0 : ℤ) : ℚ)) / w →
      ((now : ℚ) - ((p.lastPositionUpdateTime.getD 0 : ℤ) : ℚ)) / w < 1 →
      (p.meshPosition.x ≠ tp.x → strictlyBetween p.meshPosition.x
          (interpolateRemotePlayer p (some w) now).meshPosition.x tp.x) ∧
      (p.meshPosition.y ≠ tp.y → strictlyBetween p.meshPosition.y
          (interpolateRemotePlayer p (some w) now).meshPosition.y tp.y) ∧
      (p.meshPosition.z ≠ tp.z → strictlyBetween p.meshPosition.z
          (interpolateRemotePlayer p (some w) now).meshPosition.z tp.z)) := by
  constructor
  · intro p x y z ts now
    unfold updateRemotePlayer
    simp only []
    rw [(applyRemoteHealth_proj _ _).2.1, (applyRemoteRotation_proj _ _).2.1,
      (applyRemoteCharacter_proj _ _).2.1, (applyRemoteSword_proj _ _).2.1]
    have hname : applyRemoteName { p with lastUpdateTimeMs := some now } none
        = { p with lastUpdateTimeMs := some now } := by simp [applyRemoteName]
    rw [hname, applyRemotePosition_snap]
  · intro p tp pos w now htp hpos hw hf0 hf1
    have hinterp : (interpolateRemotePlayer p (some w) now).meshPosition
        = ⟨p.meshPosition.x + (tp.x - p.meshPosition.x)
              * (((now : ℚ) - ((p.lastPositionUpdateTime.getD 0 : ℤ) : ℚ)) / w),
           p.meshPosition.y + (tp.y - p.meshPosition.y)
              * (((now : ℚ) - ((p.lastPositionUpdateTime.getD 0 : ℤ) : ℚ)) / w),
           p.meshPosition.z + (tp.z - p.meshPosition.z)
              * (((now : ℚ) - ((p.lastPositionUpdateTime.getD 0 : ℤ) : ℚ)) / w)⟩ := by
      simp only [interpolateRemotePlayer, htp, hpos]
      rw [if_neg hw, min_eq_left hf1.le, if_pos hf1]
    rw [hinterp]
    refine ⟨fun hne => ?_, fun hne => ?_, fun hne => ?_⟩ <;>
      exact lerp_strictlyBetween _ _ _ hf0 hf1 hne

/-- C5 counterexample: with the shadow rendered at the origin, the update
(4, 4, 0) lies at Euclidean distance √32 > 5 from the rendered position,
yet the rendered position does not snap (it stays at the origin, away from
the stored target) because no single coordinate differs by more than 5 —
the claimed Euclidean-distance snap condition is not what the code tests. -/
theorem C5_counterexample :
    (shadowAtOrigin.meshPosition.x - 4) ^ 2 + (shadowAtOrigin.meshPosition.y - 4) ^ 2
        + (shadowAtOrigin.meshPosition.z - 0) ^ 2 > 5 ^ 2 ∧
    diagonalUpdated.targetPosition = some ⟨4, 4, 0⟩ ∧
    diagonalUpdated.meshPosition = shadowAtOrigin.meshPosition ∧
    diagonalUpdated.meshPosition ≠ ⟨4, 4, 0⟩ := by
  refine ⟨?_, ?_, ?_, ?_⟩ <;>
    norm_num [diagonalUpdated, shadowAtOrigin, updateRemotePlayer, applyRemoteName,
      applyRemotePosition, applyRemoteSword, applyRemoteCharacter, applyRemoteRotation,
      applyRemoteHealth, Vec3.mk.injEq]

/-- C6 (amended): the existing-players snapshot contains exactly the
fully registered records, each copied by `snapshotEntryOf` — including
the requesting caller's own record, which the source never filters out. -/
theorem C6_snapshot_registered_including_requester
    (players : List (String × PlayerRecord)) (id : String) (e : SnapshotEntry) :
    (id, e) ∈ sendExistingPlayersToClient players ↔
      ∃ p, (id, p) ∈ players ∧ p.fullyRegistered = true ∧ e = snapshotEntryOf p := by
  unfold sendExistingPlayersToClient
  simp only [List.mem_map, List.mem_filter, Prod.mk.injEq]
  constructor
  · rintro ⟨⟨k, q⟩, ⟨hmem, hreg⟩, hk, he⟩
    subst hk
    exact ⟨q, hmem, by simpa using hreg, he.symm⟩
  · rintro ⟨q, hmem, hreg, he⟩
    exact ⟨(id, q), ⟨hmem, by simpa using hreg⟩, rfl, he.symm⟩

/-- C6 counterexample: in a registry where the requester "a" is fully
registered alongside "b" (registered) and "c" (provisional), the snapshot
the server sends to "a" carries the keys ["a", "b"] — the requester's own
record is included, contradicting the claimed exclusion. -/
theorem C6_counterexample :
    (sendExistingPlayersToClient snapshotRegistry).map (·.1) = ["a", "b"] ∧
    "a" ∈ (sendExistingPlayersToClient snapshotRegistry).map (·.1) := by
  constructor <;> decide

/-- C7 (amended): a playerUpdate whose position has a non-finite or
non-numeric coordinate leaves the stored position untouched and does not
crash, but the handler is not free of effects: `lastActivity` is stamped
to now before validation, and a `playerUpdated` broadcast of the record
is still emitted (here stated for a delta carrying only the position). -/
theorem C7_invalid_position_drops_position_only (st : ServerState) (socketId : String)
    (cx cy cz : JSNum) (now : ℤ) (p : PlayerRecord)
    (h : alistGet socketId st.players = some p)
    (hv : (cx.isFiniteNumber && cy.isFiniteNumber && cz.isFiniteNumber) = false) :
    alistGet socketId
        ((playerUpdate st socketId { position := some (cx, cy, cz) } now).1.players)
        = some { p with lastActivity := now } ∧
    (playerUpdate st socketId { position := some (cx, cy, cz) } now).2
        = [ServerEvent.playerUpdated (broadcastOf socketId { p with lastActivity := now })] := by
  unfold playerUpdate
  rw [h]
  have hpos : applyPositionDelta { p with lastActivity := now } (some (cx, cy, cz))
      = { p with lastActivity := now } := by
    rcases cx <;> rcases cy <;> rcases cz <;>
      simp_all [applyPositionDelta, JSNum.isFiniteNumber]
  simp [hpos, applyRotationDelta, applyAttackFlag, applyBlockFlag, applySwordDelta,
    applyNameDelta, applyCharacterDelta, alistGet_insert_self]

/-- C7 witness: the invalid-position characterization evaluated at the
fresh one-player server with a NaN x coordinate at time 5. -/
theorem C7_witness :
    alistGet "a"
        ((playerUpdate freshServer "a" { position := some (.nan, .num 0, .num 0) } 5).1.players)
        = some { initialPlayerRecord "a" 0 with lastActivity := 5 } ∧
    (playerUpdate freshServer "a" { position := some (.nan, .num 0, .num 0) } 5).2
        = [ServerEvent.playerUpdated
            (broadcastOf "a" { initialPlayerRecord "a" 0 with lastActivity := 5 })] :=
  C7_invalid_position_drops_position_only freshServer "a" .nan (.num 0) (.num 0) 5 _
    (by simp [freshServer, connectHandler, alistGet, alistInsert]) rfl

/-- C7 counterexample: the record's lastActivity was 0 before the
NaN-position update and is 5 afterwards, and a broadcast was emitted —
the stored record is not unchanged and the update is not dropped
silently, contradicting the claim. -/
theorem C7_counterexample :
    (alistGet "a" freshServer.players).map (·.lastActivity) = some 0 ∧
    (alistGet "a" invalidPositionRun.1.players).map (·.lastActivity) = some 5 ∧
    invalidPositionRun.2 ≠ [] := by
  refine ⟨?_, ?_, ?_⟩ <;>
    norm_num [invalidPositionRun, freshServer, playerUpdate, connectHandler, alistGet,
      alistInsert, initialPlayerRecord, applyPositionDelta, applyRotationDelta,
      applyAttackFlag, applyBlockFlag, applySwordDelta, applyNameDelta,
      applyCharacterDelta, broadcastOf]

/-- C8: the periodic assessment classifies avg<50 ∧ jitter<10 as
excellent, else avg<100 ∧ jitter<20 as good, else avg<200 ∧ jitter<50 as
fair, else poor; the interpolation window is 50/100/150/200 ms
respectively, monotonically non-decreasing as quality degrades; samples
averaging 30 ms with jitter 5 ms are excellent with the smallest window,
and 250 ms with jitter 60 ms are poor with the largest. -/
theorem C8_quality_classification_and_windows :
    (∀ avg jitter : ℚ, classifyQuality avg jitter = .excellent ↔ avg < 50 ∧ jitter < 10) ∧
    (∀ avg jitter : ℚ, classifyQuality avg jitter = .good ↔
      ¬(avg < 50 ∧ jitter < 10) ∧ avg < 100 ∧ jitter < 20) ∧
    (∀ avg jitter : ℚ, classifyQuality avg jitter = .fair ↔
      ¬(avg < 50 ∧ jitter < 10) ∧ ¬(avg < 100 ∧ jitter < 20) ∧ avg < 200 ∧ jitter < 50) ∧
    (∀ avg jitter : ℚ, classifyQuality avg jitter = .poor ↔
      ¬(avg < 50 ∧ jitter < 10) ∧ ¬(avg < 100 ∧ jitter < 20) ∧
        ¬(avg < 200 ∧ jitter < 50)) ∧
    (interpolationTimeFor .excellent = 50 ∧ interpolationTimeFor .good = 100 ∧
      interpolationTimeFor .fair = 150 ∧ interpolationTimeFor .poor = 200) ∧
    (interpolationTimeFor .excellent ≤ interpolationTimeFor .good ∧
      interpolationTimeFor .good ≤ interpolationTimeFor .fair ∧
      interpolationTimeFor .fair ≤ interpolationTimeFor .poor) ∧
    (averageLatency [25, 30, 35] = 30 ∧ jitterOf [25, 30, 35] = 5 ∧
      assessNetworkQuality [25, 30, 35] .unknown = .excellent ∧
      (∀ q, interpolationTimeFor .excellent ≤ interpolationTimeFor q)) ∧
    (averageLatency [220, 280] = 250 ∧ jitterOf [220, 280] = 60 ∧
      assessNetworkQuality [220, 280] .unknown = .poor ∧
      (∀ q, interpolationTimeFor q ≤ interpolationTimeFor .poor)) := by
  refine ⟨?_, ?_, ?_, ?_, ?_, ?_, ⟨?_, ?_, ?_, ?_⟩, ⟨?_, ?_, ?_, ?_⟩⟩
  · intro avg j
    unfold classifyQuality
    split_ifs <;> simp_all
  · intro avg j
    unfold classifyQuality
    split_ifs <;> simp_all
  · intro avg j
    unfold classifyQuality
    split_ifs <;> simp_all
  · intro avg j
    unfold classifyQuality
    split_ifs <;> simp_all
  · norm_num [interpolationTimeFor]
  · norm_num [interpolationTimeFor]
  · norm_num [averageLatency]
  · norm_num [jitterOf, sumConsecutiveDeltas]
  · norm_num [assessNetworkQuality, classifyQuality, averageLatency, jitterOf,
      sumConsecutiveDeltas]
  · intro q
    cases q <;> norm_num [interpolationTimeFor]
  · norm_num [averageLatency]
  · norm_num [jitterOf, sumConsecutiveDeltas]
  · norm_num [assessNetworkQuality, classifyQuality, averageLatency, jitterOf,
      sumConsecutiveDeltas]
  · intro q
    cases q <;> norm_num [interpolationTimeFor]

/-- C9 (amended): an accepted playerUpdate never changes the registration
state — a Provisional record stays Provisional (there is no
auto-promotion and no "auto-registration rejected" mark anywhere in the
handler) — and only the explicit playerJoin handler makes a record
Registered. -/
theorem C9_registration_only_via_explicit_join :
    (∀ (st : ServerState) (socketId : String) (data : UpdateData) (now : ℤ)
        (p : PlayerRecord),
      alistGet socketId st.players = some p →
      (alistGet socketId ((playerUpdate st socketId data now).1.players)).map
          (·.fullyRegistered) = some p.fullyRegistered) ∧
    (∀ (st : ServerState) (socketId : String) (data : JoinData) (now : ℤ),
      (alistGet socketId ((playerJoin st socketId data now).1.players)).map
          (·.fullyRegistered) = some true) := by
  constructor
  · intro st socketId data now p h
    unfold playerUpdate
    rw [h]
    simp [alistGet_insert_self, applyCharacterDelta_fullyRegistered,
      applyNameDelta_fullyRegistered, applySwordDelta_fullyRegistered,
      applyBlockFlag_fullyRegistered, applyAttackFlag_fullyRegistered,
      applyRotationDelta_fullyRegistered, applyPositionDelta_fullyRegistered]
  · intro st socketId data now
    unfold playerJoin
    rcases hp : data.position with _ | ⟨⟨px, py, pz⟩⟩ <;>
      simp [hp, alistGet_insert_self]

/-- C9 counterexample: the provisional record of socket "a" receives a
fully valid (accepted) position update — the position is applied — yet
the record stays Provisional (fullyRegistered = false), contradicting the
claimed auto-promotion on the first accepted update. -/
theorem C9_counterexample :
    (alistGet "a" freshServer.players).map (·.fullyRegistered) = some false ∧
    (alistGet "a" validPositionRun.1.players).map (·.fullyRegistered) = some false ∧
    (alistGet "a" validPositionRun.1.players).map (·.position) = some ⟨1, 2, 3⟩ := by
  refine ⟨?_, ?_, ?_⟩ <;>
    norm_num [validPositionRun, freshServer, playerUpdate, connectHandler, alistGet,
      alistInsert, initialPlayerRecord, applyPositionDelta, applyRotationDelta,
      applyAttackFlag, applyBlockFlag, applySwordDelta, applyNameDelta,
      applyCharacterDelta]

/-- C10: a damage event whose amount strictly exceeds the target's
current health broadcasts `healthUpdate` with the unclamped negative
value h − d, followed by the defeat broadcast, while the stored health is
clamped to 0 only after that broadcast is built. -/
theorem C10_unclamped_defeat_broadcast (st : ServerState) (targetId : String)
    (damage : ℚ) (p : PlayerRecord) (h : alistGet targetId st.players = some p)
    (hd : p.health < damage) :
    (playerDamaged st targetId damage).2
        = [ServerEvent.healthUpdate targetId (p.health - damage),
           ServerEvent.playerDefeated targetId] ∧
    p.health - damage < 0 ∧
    (alistGet targetId (playerDamaged st targetId damage).1.players).map (·.health)
        = some 0 := by
  have hneg : p.health - damage ≤ 0 := by linarith
  unfold playerDamaged
  rw [h]
  simp [hneg, alistGet_insert_self]
  linarith

/-- C10 witness: the unclamped-broadcast characterization evaluated at
the single-player registry with damage 150 against health 100. -/
theorem C10_witness :
    (playerDamaged damagedRegistry "t" 150).2
        = [ServerEvent.healthUpdate "t"
            (({ initialPlayerRecord "t" 0 with
                fullyRegistered := true } : PlayerRecord).health - 150),
           ServerEvent.playerDefeated "t"] ∧
    ({ initialPlayerRecord "t" 0 with
        fullyRegistered := true } : PlayerRecord).health - 150 < 0 ∧
    (alistGet "t" (playerDamaged damagedRegistry "t" 150).1.players).map (·.health)
        = some 0 :=
  C10_unclamped_defeat_broadcast damagedRegistry "t" 150 _
    (by simp [damagedRegistry, alistGet]) (by norm_num [initialPlayerRecord])

end SwordGame
